import Mathlib

/-!
Shallow embedding of the selection-geometry core of the `wallcrop`
repository, together with theorems settling the specification claims.

Conventions of the embedding:
* Python floats are modelled as exact rationals (`ℚ`); `numpy` arrays of
  two floats are modelled as pairs `ℚ × ℚ`.
* `np.clip(x, lo, hi)` is `min (max x lo) hi` (numpy applies the lower
  bound first, then the upper bound; when `lo > hi` the result is `hi`).
* Python exceptions are modelled with `Except String`.
* `np.inf` initial accumulators of the workstation-bounds folds are
  modelled with `WithTop ℚ` (for the running minimum, initial `⊤ = +∞`)
  and `WithBot ℚ` (for the running maximum, initial `⊥ = -∞`).
-/

namespace Wallcrop

/-- Module-level constant `_MOVE_SPEED = 0.01` of `_selection.py`. -/
def MOVE_SPEED : ℚ := 1/100

/-- Module-level constant `_MOVE_SPEED_PRECISE = 0.001` of `_selection.py`. -/
def MOVE_SPEED_PRECISE : ℚ := 1/1000

/-- Module-level constant `_ZOOM_DEFAULT = 0.75` of `_selection.py`. -/
def ZOOM_DEFAULT : ℚ := 3/4

/-- Module-level constant `_ZOOM_MIN = 0.1` of `_selection.py`. -/
def ZOOM_MIN : ℚ := 1/10

/-- Module-level constant `_ZOOM_SPEED = 0.01` of `_selection.py`. -/
def ZOOM_SPEED : ℚ := 1/100

/-- Module-level constant `_ZOOM_SPEED_PRECISE = 0.001` of `_selection.py`. -/
def ZOOM_SPEED_PRECISE : ℚ := 1/1000

/-- Embedding of `np.clip(x, lo, hi)`: lower bound applied first, then the
upper bound. -/
def clip (x lo hi : ℚ) : ℚ := min (max x lo) hi

/-- The mutable state of a `Selection` object of `_selection.py`:
`self._aspect_ratio`, `self.zoom` and `self.position`.  (The observer set
`self._onchange_callback` holds no numeric state and is not modelled; the
callbacks only read the state.) -/
structure SelState where
  aspect : ℚ
  zoom : ℚ
  position : ℚ × ℚ
deriving DecidableEq

/-- The five zoom anchors of `T_ZOOM_ANCHOR` in `_selection.py`. -/
inductive Anchor where
  | center
  | nw
  | ne
  | sw
  | se
deriving DecidableEq

/-- Embedding of `Selection._onchange` (lines 53-58 of `_selection.py`):
`self.zoom = np.clip(self.zoom, _ZOOM_MIN, 1.0)` followed by
`self.position = np.clip(self.position, 0.0, 1.0 - self.zoom)`, where the
second line reads the freshly clamped `self.zoom`. -/
def onchange (s : SelState) : SelState :=
  let z := clip s.zoom ZOOM_MIN 1
  { s with zoom := z, position := (clip s.position.1 0 (1 - z), clip s.position.2 0 (1 - z)) }

/-- Embedding of `Selection.set_position`: overwrite `self.position`, then
run `self._onchange()`. -/
def set_position (p : ℚ × ℚ) (s : SelState) : SelState :=
  onchange { s with position := p }

/-- Value of the caller's `delta` array after `Selection.move_delta`
returns: when `ignore_aspect_ratio` is false the method executes
`delta[1] *= self._aspect_ratio`, mutating the argument array in place;
otherwise the array is untouched. -/
def moveDeltaArg (d : ℚ × ℚ) (ignore_aspect_ratio : Bool) (s : SelState) : ℚ × ℚ :=
  if ignore_aspect_ratio then d else (d.1, d.2 * s.aspect)

/-- Embedding of `Selection.move_delta` (lines 64-68 of `_selection.py`):
optionally scale `delta[1]` by the aspect ratio, add the delta to
`self.position`, then run `self._onchange()`. -/
def move_delta (d : ℚ × ℚ) (ignore_aspect_ratio : Bool) (s : SelState) : SelState :=
  let d := moveDeltaArg d ignore_aspect_ratio s
  onchange { s with position := (s.position.1 + d.1, s.position.2 + d.2) }

/-- Step magnitude chosen by the directional move helpers:
`_MOVE_SPEED if not precise else _MOVE_SPEED_PRECISE`. -/
def moveSpeed (precise : Bool) : ℚ :=
  if precise then MOVE_SPEED_PRECISE else MOVE_SPEED

/-- Embedding of `Selection.move_left` (default `ignore_aspect_ratio`). -/
def move_left (precise : Bool) (s : SelState) : SelState :=
  move_delta (-1 * moveSpeed precise, 0) false s

/-- Embedding of `Selection.move_right`. -/
def move_right (precise : Bool) (s : SelState) : SelState :=
  move_delta (1 * moveSpeed precise, 0) false s

/-- Embedding of `Selection.move_up`. -/
def move_up (precise : Bool) (s : SelState) : SelState :=
  move_delta (0, -1 * moveSpeed precise) false s

/-- Embedding of `Selection.move_down`. -/
def move_down (precise : Bool) (s : SelState) : SelState :=
  move_delta (0, 1 * moveSpeed precise) false s

/-- The normalized anchor point `anchor_position` chosen by the branch at
the top of `Selection.zoom_delta` (lines 94-102 of `_selection.py`). -/
def anchorPoint : Anchor → ℚ × ℚ
  | .center => (1/2, 1/2)
  | .nw => (0, 0)
  | .ne => (1, 0)
  | .sw => (0, 1)
  | .se => (1, 1)

/-- Embedding of `Selection.zoom_delta` (lines 93-104 of `_selection.py`):
`self.zoom += delta` followed by
`self.move_delta(-delta * (1.0 - anchor_position), ignore_aspect_ratio=True)`. -/
def zoom_delta (delta : ℚ) (anchor : Anchor) (s : SelState) : SelState :=
  move_delta (-delta * (1 - (anchorPoint anchor).1), -delta * (1 - (anchorPoint anchor).2))
    true { s with zoom := s.zoom + delta }

/-- Embedding of `Selection.set_zoom`:
`self.zoom_delta(zoom - self.zoom, anchor=anchor)`. -/
def set_zoom (zoom : ℚ) (anchor : Anchor) (s : SelState) : SelState :=
  zoom_delta (zoom - s.zoom) anchor s

/-- Step magnitude chosen by the directional zoom helpers. -/
def zoomSpeed (precise : Bool) : ℚ :=
  if precise then ZOOM_SPEED_PRECISE else ZOOM_SPEED

/-- Embedding of `Selection.zoom_increase`. -/
def zoom_increase (precise : Bool) (anchor : Anchor) (s : SelState) : SelState :=
  zoom_delta (1 * zoomSpeed precise) anchor s

/-- Embedding of `Selection.zoom_decrease`. -/
def zoom_decrease (precise : Bool) (anchor : Anchor) (s : SelState) : SelState :=
  zoom_delta (-1 * zoomSpeed precise) anchor s

/-- One public mutating call on a `Selection` object; arguments are the
arguments of the corresponding Python method. -/
inductive Op where
  | setPosition (p : ℚ × ℚ)
  | moveDelta (d : ℚ × ℚ) (ignore_aspect_ratio : Bool)
  | moveLeft (precise : Bool)
  | moveRight (precise : Bool)
  | moveUp (precise : Bool)
  | moveDown (precise : Bool)
  | setZoom (zoom : ℚ) (anchor : Anchor)
  | zoomDelta (delta : ℚ) (anchor : Anchor)
  | zoomIncrease (precise : Bool) (anchor : Anchor)
  | zoomDecrease (precise : Bool) (anchor : Anchor)

/-- Dispatch one mutating call to its embedded method. -/
def applyOp (op : Op) (s : SelState) : SelState :=
  match op with
  | .setPosition p => set_position p s
  | .moveDelta d i => move_delta d i s
  | .moveLeft p => move_left p s
  | .moveRight p => move_right p s
  | .moveUp p => move_up p s
  | .moveDown p => move_down p s
  | .setZoom z a => set_zoom z a s
  | .zoomDelta d a => zoom_delta d a s
  | .zoomIncrease p a => zoom_increase p a s
  | .zoomDecrease p a => zoom_decrease p a s

/-- The clamp invariant of the selection state: `zoom` lies in
`[ZOOM_MIN, 1]` and each position component lies in `[0, 1 - zoom]`. -/
def SelInv (s : SelState) : Prop :=
  ZOOM_MIN ≤ s.zoom ∧ s.zoom ≤ 1 ∧
    0 ≤ s.position.1 ∧ s.position.1 ≤ 1 - s.zoom ∧ 0 ≤ s.position.2 ∧ s.position.2 ≤ 1 - s.zoom

theorem clip_lower {x lo hi : ℚ} (h : lo ≤ hi) : lo ≤ clip x lo hi :=
  le_min (le_max_right x lo) h

theorem clip_upper (x lo hi : ℚ) : clip x lo hi ≤ hi :=
  min_le_right _ _

theorem selInv_onchange (s : SelState) : SelInv (onchange s) := by
  have hz1 : ZOOM_MIN ≤ clip s.zoom ZOOM_MIN 1 := clip_lower (by norm_num [ZOOM_MIN])
  have hz2 : clip s.zoom ZOOM_MIN 1 ≤ 1 := clip_upper _ _ _
  have hslack : (0 : ℚ) ≤ 1 - clip s.zoom ZOOM_MIN 1 := by linarith
  exact ⟨hz1, hz2, clip_lower hslack, clip_upper _ _ _, clip_lower hslack, clip_upper _ _ _⟩

/-- Embedding of `Selection.__init__` (lines 37-48 of `_selection.py`).
The expression `position if position else (np.ones(2) - self.zoom) / 2`
evaluates Python truthiness of `position`: `None` is falsy, so the centered
default is used; a two-element `numpy` array raises
`ValueError: The truth value of an array with more than one element is
ambiguous`.  The embedding returns `Except`, with the error carrying the
`ValueError` message.  Note that no clamping runs at construction time. -/
def selectionInit (aspect zoom : ℚ) (position : Option (ℚ × ℚ)) : Except String SelState :=
  match position with
  | none => Except.ok ⟨aspect, zoom, ((1 - zoom) / 2, (1 - zoom) / 2)⟩
  | some _ =>
      Except.error "The truth value of an array with more than one element is ambiguous"

/-- A monitor as parsed by `_settings.py` (`MonitorSettings`): name,
physical size, physical position, pixel resolution. -/
structure Monitor where
  name : String
  size : ℚ × ℚ
  position : ℚ × ℚ
  resolution : ℤ × ℤ
deriving DecidableEq

/-- Embedding of the `self._workstation_coord_min` fold of
`SelectionWidget.__init__` (lines 88-94 of `_selection_widget.py`):
starting from `np.array((np.inf, np.inf))`, take the componentwise
`np.minimum` with each monitor's position.  `+∞` is modelled by
`⊤ : WithTop ℚ`. -/
def coordMinFold (monitors : List Monitor) : WithTop ℚ × WithTop ℚ :=
  monitors.foldl
    (fun acc m => (min ((m.position.1 : ℚ) : WithTop ℚ) acc.1, min ((m.position.2 : ℚ) : WithTop ℚ) acc.2))
    (⊤, ⊤)

/-- Embedding of the `self._workstation_coord_max` fold of
`SelectionWidget.__init__` (lines 89-98 of `_selection_widget.py`):
starting from `np.array((-np.inf, -np.inf))`, take the componentwise
`np.maximum` with each monitor's `position + size`.  `-∞` is modelled by
`⊥ : WithBot ℚ`. -/
def coordMaxFold (monitors : List Monitor) : WithBot ℚ × WithBot ℚ :=
  monitors.foldl
    (fun acc m =>
      (max ((m.position.1 + m.size.1 : ℚ) : WithBot ℚ) acc.1,
        max ((m.position.2 + m.size.2 : ℚ) : WithBot ℚ) acc.2))
    (⊥, ⊥)

/-- Embedding of the non-emptiness check of `Window.__init__` (lines 67-69
of `_window.py`): `if not self.workstation.monitors: raise Exception(...)`.
The raised exception is the builtin `Exception` class with the message
below; the repository defines no `ConfigurationError` class. -/
def windowMonitorCheck (monitors : List Monitor) : Except String Unit :=
  if monitors.isEmpty then
    Except.error "Need at least one monitor configured per workstation."
  else Except.ok ()

/-- Embedding of `monitor_position_on_selection` in
`SelectionWidget._draw_monitors_on_selection` (lines 293-295 of
`_selection_widget.py`): `(position - coord_min) * (zoom / coord_max)`
componentwise.  Note the divisor is `coord_max`, not
`coord_max - coord_min`. -/
def monitorPosOnSelection (m : Monitor) (cmin cmax : ℚ × ℚ) (zoom : ℚ) : ℚ × ℚ :=
  ((m.position.1 - cmin.1) * (zoom / cmax.1), (m.position.2 - cmin.2) * (zoom / cmax.2))

/-- Embedding of `monitor_size_on_selection` (lines 296-298 of
`_selection_widget.py`): `size * (zoom / coord_max)` componentwise. -/
def monitorSizeOnSelection (m : Monitor) (cmax : ℚ × ℚ) (zoom : ℚ) : ℚ × ℚ :=
  (m.size.1 * (zoom / cmax.1), m.size.2 * (zoom / cmax.2))

/-- Modelled from the spec's words for comparison with the source (claim
about the monitor footprint): position `(p - min) * (zoom / (max - min))`
per axis. -/
def specMonitorPosOnSelection (m : Monitor) (cmin cmax : ℚ × ℚ) (zoom : ℚ) : ℚ × ℚ :=
  ((m.position.1 - cmin.1) * (zoom / (cmax.1 - cmin.1)),
    (m.position.2 - cmin.2) * (zoom / (cmax.2 - cmin.2)))

/-- Modelled from the spec's words for comparison with the source: size
`s * (zoom / (max - min))` per axis. -/
def specMonitorSizeOnSelection (m : Monitor) (cmin cmax : ℚ × ℚ) (zoom : ℚ) : ℚ × ℚ :=
  (m.size.1 * (zoom / (cmax.1 - cmin.1)), m.size.2 * (zoom / (cmax.2 - cmin.2)))

/-- Padding constant `_PADDING = 20` of `_selection_widget.py`. -/
def PADDING : ℚ := 20

/-- Python `int(x)` applied to a float: truncation toward zero. -/
def pyint (x : ℚ) : ℤ := if 0 ≤ x then ⌊x⌋ else ⌈x⌉

/-- The display geometry fields of `SelectionWidget` touched by
`_schedule_resize`: `self._canvas_size`, `self._canvas_wallpaper_size`,
`self._canvas_wallpaper_position` and the `self._resize_scheduled` flag. -/
structure Geom where
  canvasSize : ℚ × ℚ
  wallSize : ℚ × ℚ
  wallPos : ℚ × ℚ
  resizeScheduled : Bool
deriving DecidableEq

/-- Embedding of `SelectionWidget._schedule_resize` (lines 215-235 of
`_selection_widget.py`).  `reported` is
`(self.winfo_width(), self.winfo_height())`, `aspect` is
`self._wallpaper_aspect_ratio`.  The method first overwrites
`self._canvas_size` with the reported size, then returns early when any
component is `<= 1.0`; otherwise it recomputes the letter-boxed wallpaper
display size and sets the resize flag.  (`self._canvas_wallpaper_position`
is only written later, in `_resize_images`; the trailing
`self.schedule_redraw()` call is modelled separately by the redraw state
machine.) -/
def scheduleResize (aspect : ℚ) (reported : ℚ × ℚ) (g : Geom) : Geom :=
  let g1 := { g with canvasSize := reported }
  if reported.1 ≤ 1 ∨ reported.2 ≤ 1 then g1
  else
    let w0 : ℚ := reported.1 - 2 * PADDING
    let h0 : ℚ := (pyint (w0 / aspect) : ℤ)
    if h0 > reported.2 - 2 * PADDING then
      let h1 : ℚ := reported.2 - 2 * PADDING
      { g1 with wallSize := ((pyint (h1 * aspect) : ℤ), h1), resizeScheduled := true }
    else
      { g1 with wallSize := (w0, h0), resizeScheduled := true }

/-- The redraw-coalescing state of `SelectionWidget`:
`self._redraw_scheduled` plus a count of the `tkinter` callbacks currently
queued by `self.after(...)` and not yet run. -/
structure RedrawState where
  redrawScheduled : Bool
  pendingCallbacks : ℕ
deriving DecidableEq

/-- Embedding of `SelectionWidget.schedule_redraw` (lines 237-240 of
`_selection_widget.py`): `if not self._redraw_scheduled or force:` set the
flag and queue one more `self.after(1000 // _REDRAW_FPS, self._redraw)`
callback. -/
def scheduleRedraw (force : Bool) (r : RedrawState) : RedrawState :=
  if ¬r.redrawScheduled ∨ force then ⟨true, r.pendingCallbacks + 1⟩ else r

/-- Embedding of the effect of one queued `_redraw` callback firing (lines
242-257 of `_selection_widget.py`): the callback runs (drawing is not
modelled) and its last line `self._redraw_scheduled = False` clears the
flag; the queued callback that just ran is no longer pending. -/
def runRedraw (r : RedrawState) : RedrawState :=
  ⟨false, r.pendingCallbacks - 1⟩

/-- One event of the redraw state machine: a `schedule_redraw(force=...)`
call, or a queued `_redraw` callback firing. -/
inductive REvent where
  | schedule (force : Bool)
  | run
deriving DecidableEq

/-- Apply one redraw event. -/
def applyR (r : RedrawState) (e : REvent) : RedrawState :=
  match e with
  | .schedule f => scheduleRedraw f r
  | .run => runRedraw r

/-- Squared Euclidean norm of a 2-vector; `np.linalg.norm(v) = sqrt` of
this, and since `sqrt` is monotone, every norm comparison in the source is
equivalent to the comparison of squared norms. -/
def normSq (v : ℚ × ℚ) : ℚ := v.1 * v.1 + v.2 * v.2

/-- Componentwise difference of 2-vectors. -/
def vsub (a b : ℚ × ℚ) : ℚ × ℚ := (a.1 - b.1, a.2 - b.2)

/-- Numeric value of a numpy boolean (`False = 0`, `True = 1`). -/
def boolToQ (b : Bool) : ℚ := if b then 1 else 0

/-- Embedding of `zoom_corner = (self._mouse_zooming_anchor - 0.5) * 1e9`
(line 201 of `_selection_widget.py`): the far off-canvas point along the
diagonal of the detected anchor corner itself (for anchor `(True, True)`,
i.e. `se`, this is `(+5e8, +5e8)`, in the south-east direction). -/
def zoomCorner (anchor : Bool × Bool) : ℚ × ℚ :=
  ((boolToQ anchor.1 - 1/2) * 1000000000, (boolToQ anchor.2 - 1/2) * 1000000000)

/-- Embedding of the anchor-name branch of
`SelectionWidget._handle_mouse_motion` (lines 191-199): the boolean
per-axis comparison result is mapped to one of the four corner anchors
(the `center` default is unreachable since the array always equals one of
the four boolean pairs). -/
def anchorOfBools : Bool × Bool → Anchor
  | (false, false) => .nw
  | (true, false) => .ne
  | (false, true) => .sw
  | (true, true) => .se

/-- Embedding of `zoom_direction` (lines 202-205 of
`_selection_widget.py`): `1 - 2 * int(‖corner - mouse‖ > ‖corner - last‖)`,
with the norm comparison carried out on squared norms. -/
def zoomDirection (anchor : Bool × Bool) (mouse last : ℚ × ℚ) : ℤ :=
  1 - 2 * (if normSq (vsub (zoomCorner anchor) mouse) > normSq (vsub (zoomCorner anchor) last)
    then (1 : ℤ) else 0)

/-- Square of the unsigned `zoom_delta` of lines 206-208 of
`_selection_widget.py`: the actual value passed on is
`sqrt (zoomMagSq ...)`, i.e. `‖mouse - last‖ / ‖canvas_wallpaper_size‖`;
the square is used so the definition stays within `ℚ`. -/
def zoomMagSq (mouse last wallSize : ℚ × ℚ) : ℚ :=
  normSq (vsub mouse last) / normSq wallSize

/-- Embedding of `SelectionWidget._start_mouse_zooming` anchor detection
(lines 169-175): the boolean pair `mouse > canvas_selection_center`
per axis, where the center is
`(position + zoom / 2) * canvas_wallpaper_size + canvas_wallpaper_position`. -/
def detectZoomAnchor (s : SelState) (wallSize wallPos mouse : ℚ × ℚ) : Bool × Bool :=
  (decide ((s.position.1 + s.zoom / 2) * wallSize.1 + wallPos.1 < mouse.1),
    decide ((s.position.2 + s.zoom / 2) * wallSize.2 + wallPos.2 < mouse.2))

/-- Predicate stating that the pending-callback count of the redraw state
machine agrees with the `_redraw_scheduled` flag (and is therefore at most
one). -/
def coalesced (r : RedrawState) : Prop :=
  r.pendingCallbacks = if r.redrawScheduled then 1 else 0

theorem coalesced_applyR {r : RedrawState} (hr : coalesced r) (e : REvent)
    (he : e ≠ REvent.schedule true) : coalesced (applyR r e) := by
  cases e with
  | run =>
      simp only [applyR, coalesced, runRedraw] at hr ⊢
      by_cases hs : r.redrawScheduled <;> simp [hs] at hr ⊢ <;> omega
  | schedule f =>
      have hf : f = false := by
        cases f
        · rfl
        · exact absurd rfl he
      subst hf
      simp only [applyR, coalesced, scheduleRedraw] at hr ⊢
      by_cases hs : r.redrawScheduled <;> simp [hs] at hr ⊢ <;> omega

theorem coalesced_foldl (l : List REvent) (h : ∀ e ∈ l, e ≠ REvent.schedule true)
    {r : RedrawState} (hr : coalesced r) : coalesced (l.foldl applyR r) := by
  induction l generalizing r with
  | nil => exact hr
  | cons e t ih =>
      exact ih (fun x hx => h x (List.mem_cons_of_mem _ hx))
        (coalesced_applyR hr e (h e (List.mem_cons_self _ _)))

/-- C1: every public mutating call on a `Selection` (`set_position`,
`move_delta`, the directional move helpers, `set_zoom`, `zoom_delta`, and
the directional zoom helpers), for every state and arbitrary arguments,
leaves the state satisfying `ZOOM_MIN ≤ zoom ≤ 1` and
`0 ≤ position ≤ 1 - zoom` componentwise; every such call is exactly a raw
update followed by the single `_onchange` clamp, and `_onchange` clamps
`zoom` first and then clamps each position component into
`[0, 1 - clamped zoom]`.  Since any state reached during a call sequence
is `applyOp op` of the preceding state, the invariant holds after each
call of every finite sequence. -/
theorem c1_clamp_invariant (s : SelState) (op : Op) :
    SelInv (applyOp op s) ∧ (∃ t, applyOp op s = onchange t) ∧
    ∀ u : SelState,
      (onchange u).zoom = clip u.zoom ZOOM_MIN 1 ∧
      (onchange u).position.1 = clip u.position.1 0 (1 - clip u.zoom ZOOM_MIN 1) ∧
      (onchange u).position.2 = clip u.position.2 0 (1 - clip u.zoom ZOOM_MIN 1) := by
  cases op <;> exact ⟨selInv_onchange _, ⟨_, rfl⟩, fun u => ⟨rfl, rfl, rfl⟩⟩

/-- C2 counterexample: from `zoom = 0.5`, `position = (0.25, 0.25)`,
`zoom_delta(+0.1, anchor="nw")` moves the north-west corner (the position)
away from `(0.25, 0.25)`, and `zoom_delta(+0.1, anchor="se")` moves the
south-east corner (`position + zoom`) away from `(0.75, 0.75)` — the
claim's fixed points are wrong for both anchors. -/
theorem c2_counterexample :
    (zoom_delta (1/10) Anchor.nw ⟨2, 1/2, (1/4, 1/4)⟩).position ≠ ((1:ℚ)/4, (1:ℚ)/4) ∧
    (zoom_delta (1/10) Anchor.se ⟨2, 1/2, (1/4, 1/4)⟩).position.1 +
      (zoom_delta (1/10) Anchor.se ⟨2, 1/2, (1/4, 1/4)⟩).zoom ≠ 3/4 := by
  constructor <;>
    norm_num [zoom_delta, move_delta, moveDeltaArg, onchange, clip, anchorPoint, ZOOM_MIN,
      min_def, max_def]

/-- C2 amended: each corner anchor holds the diagonally opposite corner
fixed.  From `zoom = 0.5`, `position = (0.25, 0.25)`,
`zoom_delta(+0.1, anchor="nw")` yields `zoom = 0.6`,
`position = (0.15, 0.15)`, keeping the south-east corner
`position + zoom = (0.75, 0.75)` fixed, while
`zoom_delta(+0.1, anchor="se")` leaves `position = (0.25, 0.25)` — the
north-west corner — fixed. -/
theorem c2_anchor_opposite_corner_fixed :
    zoom_delta (1/10) Anchor.nw ⟨2, 1/2, (1/4, 1/4)⟩ = ⟨2, 3/5, (3/20, 3/20)⟩ ∧
    (zoom_delta (1/10) Anchor.nw ⟨2, 1/2, (1/4, 1/4)⟩).position.1 +
      (zoom_delta (1/10) Anchor.nw ⟨2, 1/2, (1/4, 1/4)⟩).zoom = 3/4 ∧
    (zoom_delta (1/10) Anchor.nw ⟨2, 1/2, (1/4, 1/4)⟩).position.2 +
      (zoom_delta (1/10) Anchor.nw ⟨2, 1/2, (1/4, 1/4)⟩).zoom = 3/4 ∧
    (zoom_delta (1/10) Anchor.se ⟨2, 1/2, (1/4, 1/4)⟩).position = ((1:ℚ)/4, (1:ℚ)/4) := by
  refine ⟨?_, ?_, ?_, ?_⟩ <;>
    norm_num [zoom_delta, move_delta, moveDeltaArg, onchange, clip, anchorPoint, ZOOM_MIN,
      min_def, max_def, SelState.mk.injEq, Prod.ext_iff]

/-- C3: `zoom_delta(delta, anchor)` adds `delta` to the zoom and, before
the `_onchange` clamp, shifts each position component by
`-delta * (1 - anchor_point)` with the anchor-point table
center `(0.5, 0.5)`, nw `(0, 0)`, ne `(1, 0)`, sw `(0, 1)`, se `(1, 1)`;
the shift is passed with `ignore_aspect_ratio=True`, so no aspect-ratio
factor appears on the y component. -/
theorem c3_zoom_delta_formula (s : SelState) (delta : ℚ) (a : Anchor) :
    zoom_delta delta a s =
      onchange ⟨s.aspect, s.zoom + delta,
        (s.position.1 + -delta * (1 - (anchorPoint a).1),
          s.position.2 + -delta * (1 - (anchorPoint a).2))⟩ ∧
    anchorPoint Anchor.center = (1/2, 1/2) ∧ anchorPoint Anchor.nw = (0, 0) ∧
    anchorPoint Anchor.ne = (1, 0) ∧ anchorPoint Anchor.sw = (0, 1) ∧
    anchorPoint Anchor.se = (1, 1) :=
  ⟨rfl, rfl, rfl, rfl, rfl, rfl⟩

/-- C4 counterexample: a single monitor at position `(100, 100)` of size
`(100, 100)` has workstation bounds `min = (100, 100)`,
`max = (200, 200)`; at `zoom = 1` the code computes its footprint size as
`size * (zoom / coord_max) = (0.5, 0.5)`, whereas the claimed formula
`size * (zoom / (max - min))` gives `(1, 1)`. -/
theorem c4_counterexample :
    coordMinFold [⟨"m", (100, 100), (100, 100), (1920, 1080)⟩] = (((100:ℚ) : WithTop ℚ), ((100:ℚ) : WithTop ℚ)) ∧
    coordMaxFold [⟨"m", (100, 100), (100, 100), (1920, 1080)⟩] = (((200:ℚ) : WithBot ℚ), ((200:ℚ) : WithBot ℚ)) ∧
    monitorSizeOnSelection ⟨"m", (100, 100), (100, 100), (1920, 1080)⟩ (200, 200) 1 = (1/2, 1/2) ∧
    specMonitorSizeOnSelection ⟨"m", (100, 100), (100, 100), (1920, 1080)⟩ (100, 100) (200, 200) 1 = (1, 1) ∧
    monitorSizeOnSelection ⟨"m", (100, 100), (100, 100), (1920, 1080)⟩ (200, 200) 1 ≠
      specMonitorSizeOnSelection ⟨"m", (100, 100), (100, 100), (1920, 1080)⟩ (100, 100) (200, 200) 1 := by
  refine ⟨?_, ?_, ?_, ?_, ?_⟩ <;>
    norm_num [coordMinFold, coordMaxFold, monitorSizeOnSelection, specMonitorSizeOnSelection,
      Prod.ext_iff]

/-- C4 amended: the code computes the monitor footprint in selection space
as position `(p - coord_min) * (zoom / coord_max)` and size
`size * (zoom / coord_max)` per axis — the divisor is `coord_max`, not
`coord_max - coord_min`; the two formulas agree whenever
`coord_min = (0, 0)`. -/
theorem c4_monitor_footprint (m : Monitor) (cmin cmax : ℚ × ℚ) (z : ℚ) :
    monitorPosOnSelection m cmin cmax z =
      ((m.position.1 - cmin.1) * (z / cmax.1), (m.position.2 - cmin.2) * (z / cmax.2)) ∧
    monitorSizeOnSelection m cmax z = (m.size.1 * (z / cmax.1), m.size.2 * (z / cmax.2)) ∧
    (cmin = (0, 0) →
      monitorPosOnSelection m cmin cmax z = specMonitorPosOnSelection m cmin cmax z ∧
      monitorSizeOnSelection m cmax z = specMonitorSizeOnSelection m cmin cmax z) := by
  refine ⟨rfl, rfl, ?_⟩
  rintro rfl
  constructor <;>
    simp [monitorPosOnSelection, specMonitorPosOnSelection, monitorSizeOnSelection,
      specMonitorSizeOnSelection]

/-- C4 witness: the amended theorem applied to the counterexample monitor
translated so that the bounds minimum is the origin. -/
theorem c4_witness :
    ((0:ℚ), (0:ℚ)) = ((0:ℚ), (0:ℚ)) ∧
    (monitorPosOnSelection ⟨"m", (100, 100), (0, 0), (1920, 1080)⟩ (0, 0) (100, 100) 1 =
        specMonitorPosOnSelection ⟨"m", (100, 100), (0, 0), (1920, 1080)⟩ (0, 0) (100, 100) 1 ∧
      monitorSizeOnSelection ⟨"m", (100, 100), (0, 0), (1920, 1080)⟩ (100, 100) 1 =
        specMonitorSizeOnSelection ⟨"m", (100, 100), (0, 0), (1920, 1080)⟩ (0, 0) (100, 100) 1) :=
  ⟨rfl, (c4_monitor_footprint ⟨"m", (100, 100), (0, 0), (1920, 1080)⟩ (0, 0) (100, 100) 1).2.2 rfl⟩

/-- C5 counterexample: on an empty monitor list the bounds folds of
`SelectionWidget.__init__` raise nothing and return the degenerate value
`coord_min = (+∞, +∞)`, `coord_max = (-∞, -∞)` — contradicting the claim
that bounds computation fails with a `ConfigurationError` rather than
returning a degenerate bounds value. -/
theorem c5_counterexample :
    coordMinFold [] = ((⊤ : WithTop ℚ), (⊤ : WithTop ℚ)) ∧
    coordMaxFold [] = ((⊥ : WithBot ℚ), (⊥ : WithBot ℚ)) :=
  ⟨rfl, rfl⟩

/-- C5 amended: on an empty monitor list the widget's bounds computation
returns the degenerate infinite bounds without raising, while the
non-emptiness validation lives in `Window.__init__` and raises the builtin
`Exception` (the repository defines no `ConfigurationError` class) with the
message below; with at least one monitor the check passes. -/
theorem c5_empty_monitors :
    coordMinFold [] = ((⊤ : WithTop ℚ), (⊤ : WithTop ℚ)) ∧
    coordMaxFold [] = ((⊥ : WithBot ℚ), (⊥ : WithBot ℚ)) ∧
    windowMonitorCheck [] =
      Except.error "Need at least one monitor configured per workstation." ∧
    ∀ (m : Monitor) (ms : List Monitor), windowMonitorCheck (m :: ms) = Except.ok () :=
  ⟨rfl, rfl, rfl, fun _ _ => rfl⟩

/-- C6 counterexample: with detected anchor `(True, True)` (south-east),
pointer moving from `(100, 100)` to `(200, 200)`, the code computes zoom
direction `+1` (zoom in) although the pointer moved strictly farther from
the far point along the diagonal of the opposite (north-west) corner —
the claim's sign rule, stated with the opposite corner, is violated. -/
theorem c6_counterexample :
    zoomDirection (true, true) (200, 200) (100, 100) = 1 ∧
    normSq (vsub (zoomCorner (false, false)) (200, 200)) >
      normSq (vsub (zoomCorner (false, false)) (100, 100)) := by
  constructor
  · norm_num [zoomDirection, zoomCorner, normSq, vsub, boolToQ]
  · norm_num [zoomCorner, normSq, vsub, boolToQ]

/-- C6 amended: at each pointer-move sample of a zoom drag the signed
direction is `+1` (zoom in) exactly when the pointer did not move farther
from the far point `(anchor - 0.5) * 1e9` along the detected anchor
corner's own diagonal (closer or equidistant), and `-1` (zoom out) exactly
when it moved strictly farther; the square of the unsigned magnitude is
`‖mouse - last‖² / ‖wallpaper_display_size‖²`, i.e. the magnitude is the
pointer movement's Euclidean norm divided by the display size's norm. -/
theorem c6_zoom_drag (a : Bool × Bool) (mouse last wallSize : ℚ × ℚ) :
    (zoomDirection a mouse last = 1 ↔
      normSq (vsub (zoomCorner a) mouse) ≤ normSq (vsub (zoomCorner a) last)) ∧
    (zoomDirection a mouse last = -1 ↔
      normSq (vsub (zoomCorner a) mouse) > normSq (vsub (zoomCorner a) last)) ∧
    zoomMagSq mouse last wallSize = normSq (vsub mouse last) / normSq wallSize := by
  refine ⟨?_, ?_, rfl⟩ <;>
    by_cases h : normSq (vsub (zoomCorner a) mouse) > normSq (vsub (zoomCorner a) last)
  · rw [zoomDirection, if_pos h]
    norm_num
    exact h
  · rw [zoomDirection, if_neg h]
    norm_num
    exact le_of_not_lt h
  · rw [zoomDirection, if_pos h]
    norm_num
    exact h
  · rw [zoomDirection, if_neg h]
    norm_num
    exact le_of_not_lt h

/-- C7 counterexample: with prior canvas size `(800, 600)` and reported
size `(0, 0)`, the recomputation returns early but has already overwritten
`self._canvas_size` with the degenerate reported size, so the prior canvas
size is not left unchanged. -/
theorem c7_counterexample :
    scheduleResize (16/9) (0, 0) ⟨(800, 600), (760, 427), (20, 86), false⟩ =
      ⟨(0, 0), (760, 427), (20, 86), false⟩ ∧
    (scheduleResize (16/9) (0, 0) ⟨(800, 600), (760, 427), (20, 86), false⟩).canvasSize ≠
      ((800 : ℚ), (600 : ℚ)) := by
  constructor <;> norm_num [scheduleResize, Geom.mk.injEq, Prod.ext_iff]

/-- C7 amended: when any component of the reported canvas size is `≤ 1`,
the recomputation performs no division and returns before touching the
wallpaper display size, the wallpaper display offset, or the resize flag
— but it has already stored the reported size in `self._canvas_size`. -/
theorem c7_degenerate_canvas_guard (aspect : ℚ) (reported : ℚ × ℚ) (g : Geom)
    (h : reported.1 ≤ 1 ∨ reported.2 ≤ 1) :
    scheduleResize aspect reported g = { g with canvasSize := reported } := by
  simp [scheduleResize, h]

/-- C7 witness: the guard theorem applied at reported size `(1, 1)`. -/
theorem c7_witness :
    (((1 : ℚ), (1 : ℚ)).1 ≤ 1 ∨ ((1 : ℚ), (1 : ℚ)).2 ≤ 1) ∧
    scheduleResize (16/9) (1, 1) ⟨(800, 600), (760, 427), (20, 86), false⟩ =
      ⟨(1, 1), (760, 427), (20, 86), false⟩ :=
  ⟨Or.inl le_rfl,
    c7_degenerate_canvas_guard (16/9) (1, 1) ⟨(800, 600), (760, 427), (20, 86), false⟩
      (Or.inl le_rfl)⟩

/-- C8 counterexample: calling `schedule_redraw()` and then
`schedule_redraw(force=True)` from the idle state queues two `_redraw`
callbacks at once — with arbitrary arguments the coalescing claim is
false, since `force=True` schedules even while a redraw is pending. -/
theorem c8_counterexample :
    ([REvent.schedule false, REvent.schedule true].foldl applyR ⟨false, 0⟩).pendingCallbacks = 2 := by
  decide

/-- C8 amended: `schedule_redraw` queues a new `_redraw` callback only if
no redraw is pending or `force` is true; it never clears the pending flag
(only a `_redraw` run does); and along every event sequence from the idle
state that never passes `force=True`, the pending-callback count equals
the flag and in particular at most one redraw is pending at any time. -/
theorem c8_redraw_coalescing :
    (∀ (f : Bool) (r : RedrawState),
      (scheduleRedraw f r).pendingCallbacks ≠ r.pendingCallbacks →
        r.redrawScheduled = false ∨ f = true) ∧
    (∀ (f : Bool) (r : RedrawState), r.redrawScheduled = true →
      (scheduleRedraw f r).redrawScheduled = true) ∧
    ∀ (l : List REvent), (∀ e ∈ l, e ≠ REvent.schedule true) →
      coalesced (l.foldl applyR ⟨false, 0⟩) ∧
      (l.foldl applyR ⟨false, 0⟩).pendingCallbacks ≤ 1 := by
  refine ⟨?_, ?_, ?_⟩
  · intro f r hne
    by_cases hs : r.redrawScheduled
    · by_cases hf : f = true
      · exact Or.inr hf
      · exfalso
        apply hne
        simp [scheduleRedraw, hs, hf]
    · exact Or.inl (by simpa using hs)
  · intro f r hs
    simp only [scheduleRedraw]
    split
    · rfl
    · exact hs
  · intro l hl
    have hc : coalesced (l.foldl applyR ⟨false, 0⟩) := coalesced_foldl l hl rfl
    refine ⟨hc, ?_⟩
    unfold coalesced at hc
    rw [hc]
    by_cases hs : (l.foldl applyR ⟨false, 0⟩).redrawScheduled <;> simp [hs]

/-- C8 witness: the coalescing theorem applied to the concrete event
sequence schedule, run, schedule (no force), and the first two parts at
concrete states. -/
theorem c8_witness :
    ((scheduleRedraw false ⟨false, 0⟩).pendingCallbacks ≠ (0 : ℕ) ∧
      ((false = false) = (false = false) ∨ false = true)) ∧
    ((⟨true, 1⟩ : RedrawState).redrawScheduled = true ∧
      (scheduleRedraw true ⟨true, 1⟩).redrawScheduled = true) ∧
    (∀ e ∈ [REvent.schedule false, REvent.run, REvent.schedule false],
      e ≠ REvent.schedule true) ∧
    ([REvent.schedule false, REvent.run, REvent.schedule false].foldl applyR
      ⟨false, 0⟩).pendingCallbacks ≤ 1 :=
  ⟨⟨by decide, Or.inl rfl⟩,
    ⟨rfl, c8_redraw_coalescing.2.1 true ⟨true, 1⟩ rfl⟩,
    by decide,
    (c8_redraw_coalescing.2.2 [REvent.schedule false, REvent.run, REvent.schedule false]
      (by decide)).2⟩

/-- C9: constructing a `Selection` without an explicit position succeeds
and centers the selection at `((1 - zoom)/2, (1 - zoom)/2)` (with the
default zoom `0.75` this is `(0.125, 0.125)`), while passing any explicit
two-component position array raises the numpy `ValueError` about the
ambiguous truth value of a multi-element array, so the `position`
constructor parameter can never successfully supply a starting position. -/
theorem c9_selection_init :
    (∀ (aspect zoom : ℚ), selectionInit aspect zoom none =
      Except.ok ⟨aspect, zoom, ((1 - zoom) / 2, (1 - zoom) / 2)⟩) ∧
    selectionInit 2 ZOOM_DEFAULT none = Except.ok ⟨2, 3/4, (1/8, 1/8)⟩ ∧
    ∀ (aspect zoom : ℚ) (p : ℚ × ℚ),
      selectionInit aspect zoom (some p) =
        Except.error "The truth value of an array with more than one element is ambiguous" := by
  refine ⟨fun a z => rfl, ?_, fun a z p => rfl⟩
  simp [selectionInit, ZOOM_DEFAULT, SelState.mk.injEq, Prod.ext_iff]
  norm_num

/-- C10: `move_delta` with `ignore_aspect_ratio=False` mutates the
caller's `delta` array in place — after the call its y component has been
multiplied by the aspect ratio (so whenever that changes the value, the
caller observes a changed argument) and the mutated value is what gets
added to the position; with `ignore_aspect_ratio=True` the argument is
left unchanged. -/
theorem c10_move_delta_arg_mutation (s : SelState) (d : ℚ × ℚ) :
    moveDeltaArg d false s = (d.1, d.2 * s.aspect) ∧
    moveDeltaArg d true s = d ∧
    (d.2 * s.aspect ≠ d.2 → moveDeltaArg d false s ≠ d) ∧
    move_delta d false s =
      onchange { s with position := (s.position.1 + d.1, s.position.2 + d.2 * s.aspect) } := by
  refine ⟨rfl, rfl, ?_, rfl⟩
  intro h hc
  exact h (congrArg Prod.snd hc)

/-- C10 witness: with aspect ratio `2` and `delta = (0, 0.1)` the mutated
argument differs from the original. -/
theorem c10_witness :
    ((0 : ℚ), (1 : ℚ)/10).2 * (⟨2, 3/4, (0, 0)⟩ : SelState).aspect ≠ ((0 : ℚ), (1 : ℚ)/10).2 ∧
    moveDeltaArg (0, 1/10) false ⟨2, 3/4, (0, 0)⟩ ≠ ((0 : ℚ), (1 : ℚ)/10) :=
  ⟨by norm_num,
    (c10_move_delta_arg_mutation ⟨2, 3/4, (0, 0)⟩ (0, 1/10)).2.2.1 (by norm_num)⟩

end Wallcrop
